import Mathlib

/-!
Verification of the srtgo readiness multiplexer against its design spec.

The Go sources are shallowly embedded: the external SRT engine's calls
(`srt_recvmsg2`, `srt_sendmsg2`, `srt_epoll_uwait`, `srt_epoll_add_usock`,
`srt_getsockstate`) are modelled by explicit parameters carrying the raw
return values the C side would produce, and the stateful parts
(the `pollDescs` map, the lock, the waiter signalling) are made explicit as
state values and action traces.
-/

namespace Srtgo

/-- Readiness direction, mirroring the Go `ModeRead` / `ModeWrite` constants. -/
inductive Mode
  | read
  | write
deriving DecidableEq, Repr

def ModeRead : Mode := Mode.read

def ModeWrite : Mode := Mode.write

/-- SRT error codes relevant to the embedded code paths.  `EOther` stands for
any further engine error code. -/
inductive SRTErrno
  | EAsyncSND
  | EAsyncRCV
  | ETimeout
  | EConnLost
  | EOther (code : Int)
deriving DecidableEq, Repr

/-- The C-level `SRT_ETIMEOUT` constant tested in the dispatch loop. -/
def SRT_ETIMEOUT : SRTErrno := SRTErrno.ETimeout

/-- One raw engine send/receive call outcome: the integer return value of
`srt_recvmsg2` / `srt_sendmsg2`, together with the value
`srt_getlasterror` reports when the return value is negative. -/
structure EngineAttempt where
  ret : Int
  errno : SRTErrno
deriving DecidableEq, Repr

/-- Embedding of `srtRecvMsg2Impl` (read.go): a negative raw return is turned
into `(0, some errno)`, a non-negative one into `(n, none)`.  The wrapped
system error is computed but discarded by the Go code, so it does not appear. -/
def srtRecvMsg2Impl (a : EngineAttempt) : Nat × Option SRTErrno :=
  if a.ret < 0 then (0, some a.errno) else (a.ret.toNat, none)

/-- Embedding of `srtSendMsg2Impl` (the Write source file); identical shape. -/
def srtSendMsg2Impl (a : EngineAttempt) : Nat × Option SRTErrno :=
  if a.ret < 0 then (0, some a.errno) else (a.ret.toNat, none)

/-- Go `errors.Is(err, target)` for plain comparable `SRTErrno` values. -/
def errorsIs (err : Option SRTErrno) (target : SRTErrno) : Bool :=
  err == some target

/-- The socket facade fields used by `Read` / `Write` / `ReadBatch`. -/
structure SrtSocket where
  socket : Int
  blocking : Bool
deriving DecidableEq, Repr

/-- Observable steps a `Read`/`Write` call performs, in order: an engine
primitive attempt, a waiter reset, or a blocking wait. -/
inductive IOAction
  | attempt
  | reset (mo : Mode)
  | wait (mo : Mode)
deriving DecidableEq, Repr

/-- Result of a `Read`/`Write` call together with the trace of the steps it
took. -/
structure IOOutcome where
  n : Nat
  err : Option SRTErrno
  trace : List IOAction
deriving DecidableEq, Repr

/-- Embedding of `SrtSocket.Read` (read.go lines 40-60).  `a1` is the raw
engine outcome of the fast-path `srt_recvmsg2` call, `a2` the raw outcome of
the retry call (consulted only if the code reaches the retry), and `waitRes`
the outcome of `s.pd.wait(ModeRead)` (`some e` = wait failed with `e`). -/
def SrtSocket.Read (s : SrtSocket) (a1 a2 : EngineAttempt)
    (waitRes : Option SRTErrno) : IOOutcome :=
  let r := srtRecvMsg2Impl a1
  if r.2 = none ∨ s.blocking = true ∨ errorsIs r.2 SRTErrno.EAsyncRCV = false then
    ⟨r.1, r.2, [IOAction.attempt]⟩
  else if s.blocking = false then
    match waitRes with
    | some waitErr =>
        ⟨0, some waitErr,
          [IOAction.attempt, IOAction.reset ModeRead, IOAction.wait ModeRead]⟩
    | none =>
        let r2 := srtRecvMsg2Impl a2
        ⟨r2.1, r2.2,
          [IOAction.attempt, IOAction.reset ModeRead, IOAction.wait ModeRead,
            IOAction.attempt]⟩
  else ⟨r.1, r.2, [IOAction.attempt]⟩

/-- Embedding of `SrtSocket.Write`; identical to `Read` with the send
primitive, `EAsyncSND` and `ModeWrite`. -/
def SrtSocket.Write (s : SrtSocket) (a1 a2 : EngineAttempt)
    (waitRes : Option SRTErrno) : IOOutcome :=
  let r := srtSendMsg2Impl a1
  if r.2 = none ∨ s.blocking = true ∨ errorsIs r.2 SRTErrno.EAsyncSND = false then
    ⟨r.1, r.2, [IOAction.attempt]⟩
  else if s.blocking = false then
    match waitRes with
    | some waitErr =>
        ⟨0, some waitErr,
          [IOAction.attempt, IOAction.reset ModeWrite, IOAction.wait ModeWrite]⟩
    | none =>
        let r2 := srtSendMsg2Impl a2
        ⟨r2.1, r2.2,
          [IOAction.attempt, IOAction.reset ModeWrite, IOAction.wait ModeWrite,
            IOAction.attempt]⟩
  else ⟨r.1, r.2, [IOAction.attempt]⟩

/-- A poll descriptor as registered in `pollServer.pollDescs`, identified by
its SRT socket handle. -/
structure PollDesc where
  fd : Int
deriving DecidableEq, Repr

/-- The `pollDescs` Go map, embedded as an association list from socket
handle to poll descriptor. -/
abbrev PollDescMap := List (Int × PollDesc)

/-- Go map lookup on `pollDescs`. -/
def mapLookup (m : PollDescMap) (k : Int) : Option PollDesc :=
  match m with
  | [] => none
  | (k', v) :: rest => if k' = k then some v else mapLookup rest k

/-- Go `delete` on `pollDescs`. -/
def mapDelete (m : PollDescMap) (k : Int) : PollDescMap :=
  match m with
  | [] => []
  | (k', v) :: rest =>
      if k' = k then mapDelete rest k else (k', v) :: mapDelete rest k

/-- Go map assignment `m[k] = v` (inserts, overwriting any previous entry). -/
def mapInsert (m : PollDescMap) (k : Int) (v : PollDesc) : PollDescMap :=
  (k, v) :: mapDelete m k

/-- Outcome of a registry operation: either the updated `pollDescs` map, or a
Go `panic`, which aborts carrying the map as it stood at the panic. -/
inductive RegistryOutcome
  | ok (pollDescs : PollDescMap)
  | panicked (pollDescs : PollDescMap)
deriving DecidableEq, Repr

/-- Embedding of `pollServer.pollOpen` (pollserver.go lines 40-52).  `addRet`
is the raw return value of the engine's `srt_epoll_add_usock` call: `-1`
panics before the map insertion, anything else inserts the descriptor. -/
def pollOpen (addRet : Int) (m : PollDescMap) (pd : PollDesc) : RegistryOutcome :=
  if addRet = -1 then RegistryOutcome.panicked m
  else RegistryOutcome.ok (mapInsert m pd.fd pd)

/-- SRT socket liveness states as returned by `srt_getsockstate`. -/
inductive SockState
  | SRTS_INIT
  | SRTS_OPENED
  | SRTS_LISTENING
  | SRTS_CONNECTING
  | SRTS_CONNECTED
  | SRTS_BROKEN
  | SRTS_CLOSING
  | SRTS_CLOSED
  | SRTS_NONEXIST
deriving DecidableEq, Repr

/-- Embedding of `pollServer.pollClose` (pollserver.go lines 54-67).
`sockstate` is what `srt_getsockstate(pd.fd)` reports and `removeRet` the raw
return of `srt_epoll_remove_usock`.  For a broken/closing/closed/nonexistent
socket the Go function returns immediately: the map is left untouched. -/
def pollClose (sockstate : SockState) (removeRet : Int) (m : PollDescMap)
    (pd : PollDesc) : RegistryOutcome :=
  if sockstate = SockState.SRTS_BROKEN ∨ sockstate = SockState.SRTS_CLOSING ∨
      sockstate = SockState.SRTS_CLOSED ∨ sockstate = SockState.SRTS_NONEXIST then
    RegistryOutcome.ok m
  else if removeRet = -1 then RegistryOutcome.panicked m
  else RegistryOutcome.ok (mapDelete m pd.fd)

/-- Modelled from the spec: the transport engine's add-interest call
(`srt_epoll_add_usock`) is external to this repository; per the spec's
external-interface contract a rejected add indicates the handle was already
registered in the shared context, so its return value is `-1` exactly when
the handle is already present and `0` otherwise. -/
def srtEpollAddUsockRet (m : PollDescMap) (fd : Int) : Int :=
  if mapLookup m fd = none then 0 else -1

/-- One `SRT_EPOLL_EVENT`: socket handle plus event bitmask. -/
structure Event where
  fd : Int
  events : Nat
deriving DecidableEq, Repr

def SRT_EPOLL_IN : Nat := 1

def SRT_EPOLL_OUT : Nat := 4

def SRT_EPOLL_ERR : Nat := 8

/-- The dispatch loop's poll timeout in milliseconds (pollserver.go line 76). -/
def timeoutMs : Int := 100

/-- The dispatch loop's event batch capacity `fdlen` (pollserver.go lines
79-80). -/
def fdlen : Int := 512

/-- What one iteration of the dispatch loop does next. -/
inductive LoopStep
  | next
  | fatal
  | dispatch (events : List Event)
deriving DecidableEq, Repr

/-- Embedding of one iteration of `pollServer.run` (pollserver.go lines
82-103).  `res` is the raw return of `srt_epoll_uwait`, `errno` the engine
error code queried when `res = -1`, and `fds` the event buffer contents.  A
`res` below `-1` matches no branch of the Go `if`/`else if` chain and falls
through to the next iteration. -/
def runIteration (res : Int) (errno : SRTErrno) (fds : List Event) : LoopStep :=
  if res = 0 then LoopStep.next
  else if res = -1 then
    if errno = SRT_ETIMEOUT then LoopStep.next else LoopStep.fatal
  else if 0 < res then
    let mx : Int := if fdlen < res then fdlen else res
    LoopStep.dispatch (fds.take mx.toNat)
  else LoopStep.next

/-- Observable steps of `pollServer.processEvents`, in order: taking and
releasing `pollDescLock`, copying one event's snapshot entry under the lock,
and calling `pollDesc.unblock(mode, isError, isReady)` after release. -/
inductive PollAction
  | lockAcquire
  | copy (fd : Int)
  | lockRelease
  | unblock (pd : PollDesc) (mo : Mode) (isError : Bool) (isReady : Bool)
deriving DecidableEq, Repr

/-- The snapshot taken under the lock for one event (pollserver.go lines
113-118): the waiter reference if the handle is still registered (else `nil`)
and the event flags (else the zero value). -/
def snapshotEntry (m : PollDescMap) (e : Event) : Option PollDesc × Nat :=
  match mapLookup m e.fd with
  | some pd => (some pd, e.events)
  | none => (none, 0)

/-- The unblock calls issued for one snapshot entry after the lock is
released (pollserver.go lines 122-139): a `nil` waiter is skipped; an error
bit unblocks both directions with an error signal and nothing else; otherwise
the readable and writable bits each trigger a ready unblock. -/
def dispatchEntry (entry : Option PollDesc × Nat) : List PollAction :=
  match entry with
  | (none, _) => []
  | (some pd, eventFlags) =>
      if eventFlags.land SRT_EPOLL_ERR ≠ 0 then
        [PollAction.unblock pd ModeRead true false,
          PollAction.unblock pd ModeWrite true false]
      else
        (if eventFlags.land SRT_EPOLL_IN ≠ 0 then
          [PollAction.unblock pd ModeRead false true] else []) ++
        (if eventFlags.land SRT_EPOLL_OUT ≠ 0 then
          [PollAction.unblock pd ModeWrite false true] else [])

/-- Embedding of `pollServer.processEvents` (pollserver.go lines 107-140) as
the ordered trace of its observable steps: lock, per-event snapshot copies,
unlock, then the unblock calls of every event in batch order. -/
def processEvents (m : PollDescMap) (events : List Event) : List PollAction :=
  PollAction.lockAcquire ::
    ((events.map (fun e => PollAction.copy e.fd)) ++
      (PollAction.lockRelease ::
        ((events.map (snapshotEntry m)).map dispatchEntry).flatten))

/-- Result triple of `ReadBatch`: packets read, total bytes, error. -/
structure BatchResult where
  packetsRead : Nat
  totalBytes : Nat
  err : Option SRTErrno
deriving DecidableEq, Repr

/-- Embedding of the loop body of `SrtSocket.ReadBatch` (read.go lines
131-164).  `recv i` is the raw engine outcome of the `i`-th `srt_recvmsg2`
call of this `ReadBatch` invocation and `waitRes` the outcome of the (at most
one) `s.pd.wait(ModeRead)` call.  `rem` counts the iterations the loop
condition `packetsRead < maxPackets` still allows, so it equals
`maxPackets - packetsRead` at every call. -/
def readBatchLoop (s : SrtSocket) (recv : Nat → EngineAttempt)
    (waitRes : Option SRTErrno) (bufLen : Nat) :
    Nat → Nat → Nat → Nat → Nat → BatchResult
  | 0, packetsRead, _, totalBytes, _ => ⟨packetsRead, totalBytes, none⟩
  | rem + 1, packetsRead, offset, totalBytes, callIdx =>
    if offset < bufLen then
      let r1 := srtRecvMsg2Impl (recv callIdx)
      match r1.2 with
      | some readErr =>
          if packetsRead = 0 ∧ s.blocking = false ∧
              errorsIs (some readErr) SRTErrno.EAsyncRCV = true then
            match waitRes with
            | some waitErr => ⟨0, 0, some waitErr⟩
            | none =>
                let r2 := srtRecvMsg2Impl (recv (callIdx + 1))
                match r2.2 with
                | some readErr2 =>
                    if 0 < packetsRead then ⟨packetsRead, totalBytes, none⟩
                    else ⟨0, 0, some readErr2⟩
                | none =>
                    if r2.1 = 0 then ⟨packetsRead, totalBytes, none⟩
                    else
                      readBatchLoop s recv waitRes bufLen rem (packetsRead + 1)
                        (offset + r2.1) (totalBytes + r2.1) (callIdx + 2)
          else
            if 0 < packetsRead then ⟨packetsRead, totalBytes, none⟩
            else ⟨0, 0, some readErr⟩
      | none =>
          if r1.1 = 0 then ⟨packetsRead, totalBytes, none⟩
          else
            readBatchLoop s recv waitRes bufLen rem (packetsRead + 1)
              (offset + r1.1) (totalBytes + r1.1) (callIdx + 1)
    else ⟨packetsRead, totalBytes, none⟩

/-- Embedding of `SrtSocket.ReadBatch` (read.go lines 126-167): the guard for
a non-positive `maxPackets` or an empty buffer, then the read loop starting
from zero packets, offset, bytes and engine calls. -/
def SrtSocket.ReadBatch (s : SrtSocket) (recv : Nat → EngineAttempt)
    (waitRes : Option SRTErrno) (bufLen : Nat) (maxPackets : Int) : BatchResult :=
  if maxPackets ≤ 0 ∨ bufLen = 0 then ⟨0, 0, none⟩
  else readBatchLoop s recv waitRes bufLen maxPackets.toNat 0 0 0 0

end Srtgo

namespace Srtgo

/-- Claim C1: on a non-blocking socket whose fast path reports would-block
(`EAsyncRCV` for Read, `EAsyncSND` for Write) and whose wait succeeds, the
operation resets the direction's waiter, waits, re-attempts the primitive
exactly once more and returns exactly what that second attempt yields
(a second would-block included) — the trace shows one reset, one wait and
exactly two attempts. -/
theorem read_write_single_retry (s : SrtSocket) (a1 a2 : EngineAttempt)
    (hb : s.blocking = false) (hret : a1.ret < 0) :
    (a1.errno = SRTErrno.EAsyncRCV →
      SrtSocket.Read s a1 a2 none =
        ⟨(srtRecvMsg2Impl a2).1, (srtRecvMsg2Impl a2).2,
          [IOAction.attempt, IOAction.reset ModeRead, IOAction.wait ModeRead,
            IOAction.attempt]⟩) ∧
    (a1.errno = SRTErrno.EAsyncSND →
      SrtSocket.Write s a1 a2 none =
        ⟨(srtSendMsg2Impl a2).1, (srtSendMsg2Impl a2).2,
          [IOAction.attempt, IOAction.reset ModeWrite, IOAction.wait ModeWrite,
            IOAction.attempt]⟩) := by
  constructor
  · intro ha
    simp [SrtSocket.Read, srtRecvMsg2Impl, errorsIs, hret, hb, ha]
  · intro ha
    simp [SrtSocket.Write, srtSendMsg2Impl, errorsIs, hret, hb, ha]

/-- Witness for C1 at a concrete input: fast path would-block, wait succeeds,
retry would-block again; the second would-block is returned as-is. -/
theorem read_write_single_retry_witness :
    SrtSocket.Read ⟨3, false⟩ ⟨-1, SRTErrno.EAsyncRCV⟩ ⟨-1, SRTErrno.EAsyncRCV⟩ none =
      ⟨0, some SRTErrno.EAsyncRCV,
        [IOAction.attempt, IOAction.reset ModeRead, IOAction.wait ModeRead,
          IOAction.attempt]⟩ := by
  have h := (read_write_single_retry ⟨3, false⟩ ⟨-1, SRTErrno.EAsyncRCV⟩
    ⟨-1, SRTErrno.EAsyncRCV⟩ rfl (by decide)).1 rfl
  rw [h]; decide

/-- Claim C4: on a blocking-mode socket the fast-path result is returned
unchanged, whatever it is: the trace is a single attempt, with no reset, no
wait and no retry. -/
theorem blocking_fastpath_unchanged (s : SrtSocket) (a1 a2 : EngineAttempt)
    (w : Option SRTErrno) (hb : s.blocking = true) :
    SrtSocket.Read s a1 a2 w =
        ⟨(srtRecvMsg2Impl a1).1, (srtRecvMsg2Impl a1).2, [IOAction.attempt]⟩ ∧
    SrtSocket.Write s a1 a2 w =
        ⟨(srtSendMsg2Impl a1).1, (srtSendMsg2Impl a1).2, [IOAction.attempt]⟩ := by
  constructor
  · simp [SrtSocket.Read, hb]
  · simp [SrtSocket.Write, hb]

/-- Witness for C4: a blocking socket whose fast path reports would-block gets
that error surfaced unchanged with no retry. -/
theorem blocking_fastpath_unchanged_witness :
    SrtSocket.Read ⟨3, true⟩ ⟨-1, SRTErrno.EAsyncRCV⟩ ⟨7, SRTErrno.EConnLost⟩ none =
      ⟨0, some SRTErrno.EAsyncRCV, [IOAction.attempt]⟩ := by
  have h := (blocking_fastpath_unchanged ⟨3, true⟩ ⟨-1, SRTErrno.EAsyncRCV⟩
    ⟨7, SRTErrno.EConnLost⟩ none rfl).1
  rw [h]; decide

/-- Claim C5: on a non-blocking socket that enters the waiting state, a fatal
`wait` error is returned immediately as `(0, waitErr)` and no second engine
attempt is made (the trace ends at the wait). -/
theorem wait_error_propagates (s : SrtSocket) (a1 a2 : EngineAttempt)
    (e : SRTErrno) (hb : s.blocking = false) (hret : a1.ret < 0) :
    (a1.errno = SRTErrno.EAsyncRCV →
      SrtSocket.Read s a1 a2 (some e) =
        ⟨0, some e,
          [IOAction.attempt, IOAction.reset ModeRead, IOAction.wait ModeRead]⟩) ∧
    (a1.errno = SRTErrno.EAsyncSND →
      SrtSocket.Write s a1 a2 (some e) =
        ⟨0, some e,
          [IOAction.attempt, IOAction.reset ModeWrite, IOAction.wait ModeWrite]⟩) := by
  constructor
  · intro ha
    simp [SrtSocket.Read, srtRecvMsg2Impl, errorsIs, hret, hb, ha]
  · intro ha
    simp [SrtSocket.Write, srtSendMsg2Impl, errorsIs, hret, hb, ha]

/-- Witness for C5 at a concrete input: the wait's fatal error comes back with
byte count 0 and a trace with a single engine attempt. -/
theorem wait_error_propagates_witness :
    SrtSocket.Write ⟨3, false⟩ ⟨-1, SRTErrno.EAsyncSND⟩ ⟨9, SRTErrno.EConnLost⟩
        (some SRTErrno.EConnLost) =
      ⟨0, some SRTErrno.EConnLost,
        [IOAction.attempt, IOAction.reset ModeWrite, IOAction.wait ModeWrite]⟩ := by
  have h := (wait_error_propagates ⟨3, false⟩ ⟨-1, SRTErrno.EAsyncSND⟩
    ⟨9, SRTErrno.EConnLost⟩ SRTErrno.EConnLost rfl (by decide)).2 rfl
  rw [h]

/-- Claim C2, checked at the failing input: `pollClose` on a registered
socket whose engine state is broken returns before the map delete, so the
handle's entry is NOT removed from `pollDescs` — the orphan entry survives,
contradicting the spec's map-only-removal / no-orphan invariant. -/
theorem pollClose_broken_leaves_orphan :
    pollClose SockState.SRTS_BROKEN 0 [((5 : Int), PollDesc.mk 5)]
        (PollDesc.mk 5) =
      RegistryOutcome.ok [((5 : Int), PollDesc.mk 5)] ∧
    mapLookup [((5 : Int), PollDesc.mk 5)] 5 = some (PollDesc.mk 5) := by
  decide

/-- Claim C6: registering a handle already present in `pollDescs` fails
fatally — with the spec-modelled engine rejecting the duplicate add, the
panic happens before the map insertion, so the existing entry is never
overwritten and no successful outcome exists. -/
theorem register_duplicate_fails (m : PollDescMap) (pd : PollDesc)
    (h : mapLookup m pd.fd ≠ none) :
    pollOpen (srtEpollAddUsockRet m pd.fd) m pd = RegistryOutcome.panicked m ∧
      ∀ m', pollOpen (srtEpollAddUsockRet m pd.fd) m pd ≠ RegistryOutcome.ok m' := by
  have ha : srtEpollAddUsockRet m pd.fd = -1 := by
    simp [srtEpollAddUsockRet, h]
  exact ⟨by simp [pollOpen, ha], fun m' => by simp [pollOpen, ha]⟩

/-- Witness for C6: registering handle 5 while it is already registered
panics with the map unchanged. -/
theorem register_duplicate_fails_witness :
    pollOpen (srtEpollAddUsockRet [((5 : Int), PollDesc.mk 5)] 5)
        [((5 : Int), PollDesc.mk 5)] (PollDesc.mk 5) =
      RegistryOutcome.panicked [((5 : Int), PollDesc.mk 5)] :=
  (register_duplicate_fails [((5 : Int), PollDesc.mk 5)] (PollDesc.mk 5)
    (by decide)).1

/-- Claim C7: a zero-event poll return continues the loop; a negative return
whose engine error is the timeout code continues; any other error code on a
negative return is fatal. -/
theorem run_loop_error_classification (errno : SRTErrno) (fds : List Event) :
    runIteration 0 errno fds = LoopStep.next ∧
      runIteration (-1) SRT_ETIMEOUT fds = LoopStep.next ∧
      (errno ≠ SRT_ETIMEOUT → runIteration (-1) errno fds = LoopStep.fatal) := by
  refine ⟨by simp [runIteration], by simp [runIteration], ?_⟩
  intro h
  simp [runIteration, h]

/-- Witness for C7: a poll error with a non-timeout code is fatal. -/
theorem run_loop_error_classification_witness :
    runIteration (-1) SRTErrno.EConnLost [] = LoopStep.fatal :=
  (run_loop_error_classification SRTErrno.EConnLost []).2.2 (by decide)

/-- Claim C8: every poll call of the dispatch loop uses batch capacity 512
and a bounded 100 ms timeout, and a positive poll result dispatches at most
512 events even when the reported count is larger. -/
theorem poll_batch_bounded (res : Int) (errno : SRTErrno) (fds : List Event) :
    timeoutMs = 100 ∧ 0 < timeoutMs ∧ fdlen = 512 ∧
      (0 < res → ∃ evs, runIteration res errno fds = LoopStep.dispatch evs ∧
        evs.length ≤ 512) := by
  refine ⟨rfl, by decide, rfl, ?_⟩
  intro hres
  have h0 : res ≠ 0 := by omega
  have h1 : res ≠ -1 := by omega
  refine ⟨fds.take (if fdlen < res then fdlen else res).toNat, ?_, ?_⟩
  · simp [runIteration, h0, h1, hres]
  · have hb : (if fdlen < res then fdlen else res).toNat ≤ 512 := by
      unfold fdlen
      split <;> omega
    have hlen := List.length_take_le (if fdlen < res then fdlen else res).toNat fds
    omega

/-- Witness for C8: a poll result of 600 on an oversized buffer dispatches at
most 512 events. -/
theorem poll_batch_bounded_witness :
    ∃ evs, runIteration 600 SRTErrno.EConnLost [] = LoopStep.dispatch evs ∧
      evs.length ≤ 512 :=
  (poll_batch_bounded 600 SRTErrno.EConnLost []).2.2.2 (by decide)

/-- Claim C3: per dispatched event, a nil waiter is skipped entirely (and a
handle absent from the map snapshots to a nil waiter with zeroed flags); an
error bit unblocks both directions with an error signal and nothing else;
with the error bit clear, a ready unblock is issued for the read direction
exactly when the readable bit is set and for the write direction exactly when
the writable bit is set, and every action issued is one of those two ready
unblocks. -/
theorem dispatch_unblock_rules (m : PollDescMap) (pd : PollDesc) (flags : Nat)
    (e : Event) :
    (dispatchEntry (none, flags) = []) ∧
    (mapLookup m e.fd = none → snapshotEntry m e = (none, 0)) ∧
    (flags.land SRT_EPOLL_ERR ≠ 0 →
      dispatchEntry (some pd, flags) =
        [PollAction.unblock pd ModeRead true false,
          PollAction.unblock pd ModeWrite true false]) ∧
    (flags.land SRT_EPOLL_ERR = 0 →
      ((PollAction.unblock pd ModeRead false true ∈
          dispatchEntry (some pd, flags)) ↔ flags.land SRT_EPOLL_IN ≠ 0) ∧
      ((PollAction.unblock pd ModeWrite false true ∈
          dispatchEntry (some pd, flags)) ↔ flags.land SRT_EPOLL_OUT ≠ 0) ∧
      (∀ a ∈ dispatchEntry (some pd, flags),
        a = PollAction.unblock pd ModeRead false true ∨
          a = PollAction.unblock pd ModeWrite false true)) := by
  refine ⟨rfl, ?_, ?_, ?_⟩
  · intro h
    simp [snapshotEntry, h]
  · intro herr
    simp [dispatchEntry, herr]
  · intro herr
    refine ⟨?_, ?_, ?_⟩
    · by_cases hin : flags.land SRT_EPOLL_IN ≠ 0 <;>
        by_cases hout : flags.land SRT_EPOLL_OUT ≠ 0 <;>
        simp [dispatchEntry, herr, hin, hout, ModeRead, ModeWrite]
    · by_cases hin : flags.land SRT_EPOLL_IN ≠ 0 <;>
        by_cases hout : flags.land SRT_EPOLL_OUT ≠ 0 <;>
        simp [dispatchEntry, herr, hin, hout, ModeRead, ModeWrite]
    · intro a ha
      by_cases hin : flags.land SRT_EPOLL_IN ≠ 0 <;>
        by_cases hout : flags.land SRT_EPOLL_OUT ≠ 0 <;>
        simp [dispatchEntry, herr, hin, hout] at ha <;>
        tauto

/-- Witness for C3: an event with both the readable and the error bit set
unblocks both directions with an error signal and issues no ready unblock. -/
theorem dispatch_unblock_rules_witness :
    dispatchEntry (some (PollDesc.mk 5), 9) =
      [PollAction.unblock (PollDesc.mk 5) ModeRead true false,
        PollAction.unblock (PollDesc.mk 5) ModeWrite true false] :=
  (dispatch_unblock_rules [] (PollDesc.mk 5) 9 (Event.mk 5 9)).2.2.1 (by decide)

/-- Every action `dispatchEntry` emits is an unblock call. -/
theorem dispatchEntry_only_unblocks (entry : Option PollDesc × Nat) :
    ∀ a ∈ dispatchEntry entry,
      ∃ pd mo ie ir, a = PollAction.unblock pd mo ie ir := by
  rcases entry with ⟨opd, flags⟩
  cases opd with
  | none =>
      intro a ha
      simp [dispatchEntry] at ha
  | some pd =>
      intro a ha
      by_cases herr : flags.land SRT_EPOLL_ERR ≠ 0
      · simp [dispatchEntry, herr] at ha
        rcases ha with rfl | rfl
        · exact ⟨pd, ModeRead, true, false, rfl⟩
        · exact ⟨pd, ModeWrite, true, false, rfl⟩
      · by_cases hin : flags.land SRT_EPOLL_IN ≠ 0 <;>
          by_cases hout : flags.land SRT_EPOLL_OUT ≠ 0 <;>
          simp [dispatchEntry, herr, hin, hout] at ha
        · rcases ha with rfl | rfl
          · exact ⟨pd, ModeRead, false, true, rfl⟩
          · exact ⟨pd, ModeWrite, false, true, rfl⟩
        · exact ⟨pd, ModeRead, false, true, by rw [ha]⟩
        · exact ⟨pd, ModeWrite, false, true, by rw [ha]⟩

/-- Claim C9: the trace of `processEvents` is exactly a lock acquire, then
only per-event snapshot copies while the lock is held, then the lock
release, then only unblock calls: no unblock call ever executes while the
map lock is held. -/
theorem lock_released_before_unblock (m : PollDescMap) (events : List Event) :
    ∃ held dispatched,
      processEvents m events =
          PollAction.lockAcquire ::
            (held ++ PollAction.lockRelease :: dispatched) ∧
        (∀ a ∈ held, ∃ fd, a = PollAction.copy fd) ∧
        (∀ a ∈ dispatched, ∃ pd mo ie ir, a = PollAction.unblock pd mo ie ir) := by
  refine ⟨events.map (fun e => PollAction.copy e.fd),
    ((events.map (snapshotEntry m)).map dispatchEntry).flatten, ?_, ?_, ?_⟩
  · rfl
  · intro a ha
    rcases List.mem_map.mp ha with ⟨ev, _, rfl⟩
    exact ⟨ev.fd, rfl⟩
  · intro a ha
    rcases List.mem_flatten.mp ha with ⟨l, hl, hal⟩
    rcases List.mem_map.mp hl with ⟨entry, _, rfl⟩
    exact dispatchEntry_only_unblocks entry a hal

/-- Any `readBatchLoop` outcome carrying an error reports zero packets and
zero bytes: every error-returning path of the loop is guarded by a
zero-packets check. -/
theorem readBatchLoop_err_shape (s : SrtSocket) (recv : Nat → EngineAttempt)
    (waitRes : Option SRTErrno) (bufLen : Nat) :
    ∀ rem packetsRead offset totalBytes callIdx,
      (readBatchLoop s recv waitRes bufLen rem packetsRead offset totalBytes
          callIdx).err ≠ none →
        (readBatchLoop s recv waitRes bufLen rem packetsRead offset totalBytes
            callIdx).packetsRead = 0 ∧
        (readBatchLoop s recv waitRes bufLen rem packetsRead offset totalBytes
            callIdx).totalBytes = 0 := by
  intro rem
  induction rem with
  | zero =>
      intro pr off tb ci h
      exact absurd rfl h
  | succ n ih =>
      intro pr off tb ci
      simp only [readBatchLoop]
      split
      · split
        · split
          · split
            · intro _
              exact ⟨rfl, rfl⟩
            · split
              · split
                · intro h
                  exact absurd rfl h
                · intro _
                  exact ⟨rfl, rfl⟩
              · split
                · intro h
                  exact absurd rfl h
                · exact ih _ _ _ _
          · split
            · intro h
              exact absurd rfl h
            · intro _
              exact ⟨rfl, rfl⟩
        · split
          · intro h
            exact absurd rfl h
          · exact ih _ _ _ _
      · intro h
        exact absurd rfl h

/-- Once at least one packet has been read, every further path of
`readBatchLoop` returns a nil error. -/
theorem readBatchLoop_keeps_packets (s : SrtSocket) (recv : Nat → EngineAttempt)
    (waitRes : Option SRTErrno) (bufLen : Nat) :
    ∀ rem packetsRead offset totalBytes callIdx, 0 < packetsRead →
      (readBatchLoop s recv waitRes bufLen rem packetsRead offset totalBytes
        callIdx).err = none := by
  intro rem
  induction rem with
  | zero =>
      intro pr off tb ci _
      rfl
  | succ n ih =>
      intro pr off tb ci hpr
      have hpr0 : ¬ pr = 0 := by omega
      simp only [readBatchLoop]
      split
      · split
        · simp [hpr0, hpr]
        · split
          · rfl
          · exact ih _ _ _ _ (by omega)
      · rfl

/-- Claim C10: a `ReadBatch` call with non-positive `maxPackets` or an empty
buffer returns `(0, 0, nil)` independently of the engine; any `ReadBatch`
outcome with a non-nil error reports zero packets and zero bytes; and once at
least one packet has been read the loop never surfaces an error — so a
receive failure is observable only before the first packet. -/
theorem readbatch_error_only_before_first_packet (s : SrtSocket)
    (recv : Nat → EngineAttempt) (waitRes : Option SRTErrno) (bufLen : Nat)
    (maxPackets : Int) :
    ((maxPackets ≤ 0 ∨ bufLen = 0) →
      ∀ recv2 waitRes2,
        SrtSocket.ReadBatch s recv2 waitRes2 bufLen maxPackets = ⟨0, 0, none⟩) ∧
    ((SrtSocket.ReadBatch s recv waitRes bufLen maxPackets).err ≠ none →
      (SrtSocket.ReadBatch s recv waitRes bufLen maxPackets).packetsRead = 0 ∧
      (SrtSocket.ReadBatch s recv waitRes bufLen maxPackets).totalBytes = 0) ∧
    (∀ rem packetsRead offset totalBytes callIdx, 0 < packetsRead →
      (readBatchLoop s recv waitRes bufLen rem packetsRead offset totalBytes
        callIdx).err = none) := by
  refine ⟨?_, ?_, ?_⟩
  · intro h recv2 waitRes2
    unfold SrtSocket.ReadBatch
    rw [if_pos h]
  · intro h
    unfold SrtSocket.ReadBatch at h ⊢
    by_cases hg : maxPackets ≤ 0 ∨ bufLen = 0
    · rw [if_pos hg] at h
      exact absurd rfl h
    · rw [if_neg hg] at h ⊢
      exact readBatchLoop_err_shape s recv waitRes bufLen _ _ _ _ _ h
  · exact readBatchLoop_keeps_packets s recv waitRes bufLen

/-- Witness for C10: an empty-buffer call returns `(0, 0, nil)` even though
every engine call would fail, and a loop state that has already read one
packet yields a nil error. -/
theorem readbatch_error_only_before_first_packet_witness :
    SrtSocket.ReadBatch ⟨3, false⟩ (fun _ => ⟨-1, SRTErrno.EConnLost⟩) none 0 5 =
        ⟨0, 0, none⟩ ∧
      (readBatchLoop ⟨3, false⟩ (fun _ => ⟨-1, SRTErrno.EConnLost⟩) none 10 4 1 0
        7 0).err = none := by
  constructor
  · exact (readbatch_error_only_before_first_packet ⟨3, false⟩
      (fun _ => ⟨-1, SRTErrno.EConnLost⟩) none 0 5).1 (Or.inr rfl) _ _
  · exact (readbatch_error_only_before_first_packet ⟨3, false⟩
      (fun _ => ⟨-1, SRTErrno.EConnLost⟩) none 10 5).2.2 4 1 0 7 0 (by decide)

end Srtgo
